import Mathlib

/-! Shallow embedding of the cc0 array library (src/arr.h): the dynamically
sized specialization cc0::array<type_t, 0> ("DynArray") and cc0::slice, with
theorems settling the specification's claims about them.

Heap buffers are modelled as Lean lists: m_values = none models a null
pointer, m_values = some buf an allocation of exactly buf.length elements.
Uninitialized memory and out-of-bounds reads (undefined behaviour in the
source) are modelled as the junk value default. create, destroy, copy and
move-assignment additionally return the number of buffer allocations and
deallocations they perform, so that claims about an instrumenting allocator
can be stated. -/

namespace cc0

/-- State of cc0::array<type_t, 0>: fields m_values (heap pointer, none for
nullptr), m_size (logical length) and m_capacity (allocated length). -/
structure array (α : Type) where
  m_values : Option (List α)
  m_size : Nat
  m_capacity : Nat
deriving DecidableEq

/-- Default constructor array() : m_values(nullptr), m_size(0), m_capacity(0). -/
def array.empty (α : Type) : array α := ⟨none, 0, 0⟩

/-- destroy(use_pool): if not pooling, delete [] m_values, null the pointer and
zero the capacity; in either case set m_size = 0. The second component counts
deallocations (delete [] on a null pointer frees nothing). -/
def array.destroy (a : array α) (use_pool : Bool) : array α × Nat :=
  if use_pool = false then
    (⟨none, 0, 0⟩, if a.m_values.isSome then 1 else 0)
  else
    (⟨a.m_values, 0, a.m_capacity⟩, 0)

/-- create(size, use_pool): if (size < m_capacity && !use_pool) || size > m_capacity,
then destroy(false), and if size > 0 allocate m_values = new type_t[size] (a list
of size junk elements) and set m_size = m_capacity = size; otherwise the whole
body is skipped and no field changes. Returns (state, allocations, deallocations). -/
def array.create [Inhabited α] (a : array α) (size : Nat) (use_pool : Bool) :
    array α × Nat × Nat :=
  if (size < a.m_capacity ∧ use_pool = false) ∨ size > a.m_capacity then
    let d := a.destroy false
    if size > 0 then
      (⟨some (List.replicate size default), size, size⟩, 1, d.2)
    else
      (d.1, 0, d.2)
  else
    (a, 0, 0)

/-- Write loop of copy(values, size, use_pool): for (i = 0; i < n; ++i)
buf[i] = src[i], for a source region src that does not alias buf. Reads past
the source region are undefined behaviour and yield the junk value default;
writes past the buffer are undefined behaviour and modelled as no-ops (they
never happen in states satisfying the invariant). -/
def copyLoop [Inhabited α] (src : List α) : List α → Nat → List α
  | buf, 0 => buf
  | buf, n + 1 => (copyLoop src buf n).set n (src.getD n default)

/-- copy(values, size, use_pool) for a non-aliasing source: create(size, use_pool),
then the write loop runs up to the resulting m_size, writing into the buffer.
Returns (state, allocations, deallocations). -/
def array.copy [Inhabited α] (a : array α) (src : List α) (size : Nat)
    (use_pool : Bool) : array α × Nat × Nat :=
  let r := a.create size use_pool
  (⟨r.1.m_values.map (fun buf => copyLoop src buf r.1.m_size), r.1.m_size,
    r.1.m_capacity⟩, r.2.1, r.2.2)

/-- operator=(const array &arr) for a distinct source object: copy(arr,
arr.size(), true), where arr decays to the pointer arr.m_values, so the
readable source region is the source's whole allocation. -/
def array.copyAssign [Inhabited α] (d c : array α) : array α × Nat × Nat :=
  d.copy (c.m_values.getD []) c.m_size true

/-- Write loop of copy when the source pointer aliases this array's own buffer
(self copy-assignment): each read buf[i] sees the writes already performed. -/
def selfCopyLoop [Inhabited α] : List α → Nat → List α
  | buf, 0 => buf
  | buf, n + 1 =>
    let b := selfCopyLoop buf n
    b.set n (b.getD n default)

/-- operator=(const array &arr) when arr is this very object: copy(arr,
arr.size(), true) with the source pointer equal to m_values, so the write loop
is the aliased one. Returns (state, allocations, deallocations). -/
def array.selfCopyAssign [Inhabited α] (c : array α) : array α × Nat × Nat :=
  let r := c.create c.m_size true
  (⟨r.1.m_values.map (fun buf => selfCopyLoop buf r.1.m_size), r.1.m_size,
    r.1.m_capacity⟩, r.2.1, r.2.2)

/-- operator=(array &&arr) for a distinct source object: if (m_values !=
arr.m_values) destroy(false); then adopt arr's three fields and null out arr.
Two distinct owning arrays share a buffer pointer only when both are null, so
the guard is modelled that way; it only affects the deallocation count.
Returns ((this after, arr after), deallocations). -/
def array.moveAssign (d c : array α) : (array α × array α) × Nat :=
  let fr := if d.m_values.isNone ∧ c.m_values.isNone then 0 else (d.destroy false).2
  ((⟨c.m_values, c.m_size, c.m_capacity⟩, ⟨none, 0, 0⟩), fr)

/-- array(array &&arr): initializes m_values (via the pointer decay of arr),
m_size and m_capacity from arr, then sets arr to (nullptr, 0, 0). Returns
(new object, arr after). -/
def array.moveCtor (c : array α) : array α × array α :=
  (⟨c.m_values, c.m_size, c.m_capacity⟩, ⟨none, 0, 0⟩)

/-- operator=(array &&arr) when arr is this very object: the guard m_values !=
arr.m_values is false, so destroy is skipped and no buffer is freed; adopting
the three fields from the alias is the identity; then arr.m_values = nullptr,
arr.m_size = 0, arr.m_capacity = 0 write through the alias, leaving this
object empty (the old buffer, if any, is leaked). Returns (state, deallocations). -/
def array.selfMoveAssign (c : array α) : array α × Nat :=
  let adopted : array α := ⟨c.m_values, c.m_size, c.m_capacity⟩
  let z1 : array α := ⟨none, adopted.m_size, adopted.m_capacity⟩
  let z2 : array α := ⟨z1.m_values, 0, z1.m_capacity⟩
  (⟨z2.m_values, z2.m_size, 0⟩, 0)

/-- size(): returns m_size. -/
def array.size (a : array α) : Nat := a.m_size

/-- Element access a[i] through the decay to type_t*: m_values[i]. Reads through
null or past the allocation are undefined behaviour, modelled as default. -/
def array.get [Inhabited α] (a : array α) (i : Nat) : α :=
  (a.m_values.getD []).getD i default

/-- DynArray state invariant from the specification: m_size ≤ m_capacity; if
m_capacity > 0 then m_values refers to exactly m_capacity contiguous elements;
if m_capacity = 0 then m_values is null (and hence m_size = 0). -/
def array.Inv (a : array α) : Prop :=
  a.m_size ≤ a.m_capacity ∧
    match a.m_values with
    | none => a.m_capacity = 0
    | some buf => buf.length = a.m_capacity ∧ 0 < a.m_capacity

instance instDecidableInv (a : array α) : Decidable a.Inv :=
  match h : a.m_values with
  | none =>
    decidable_of_iff (a.m_size ≤ a.m_capacity ∧ a.m_capacity = 0)
      (by unfold array.Inv; rw [h])
  | some buf =>
    decidable_of_iff
      (a.m_size ≤ a.m_capacity ∧ buf.length = a.m_capacity ∧ 0 < a.m_capacity)
      (by unfold array.Inv; rw [h])

/-- State of cc0::slice: m_values is a pointer into a memory region, modelled
as the region mem together with the pointer's offset off into it; m_size is
the view's length. -/
structure slice (α : Type) where
  mem : List α
  off : Nat
  m_size : Nat
deriving DecidableEq

/-- size(): returns m_size. -/
def slice.size (s : slice α) : Nat := s.m_size

/-- operator()(start, end): slice(m_values + start, end - start). Subtraction
is on uint64; narrowing with start > end or end > size is undefined behaviour,
so the defined domain has start ≤ end and Nat subtraction agrees with it. -/
def slice.sub (s : slice α) (start stop : Nat) : slice α :=
  ⟨s.mem, s.off + start, stop - start⟩

/-- Element access s[i] through the decay to type_t*: *(m_values + i). Reads
outside the region are undefined behaviour, modelled as default. -/
def slice.get [Inhabited α] (s : slice α) (i : Nat) : α :=
  s.mem.getD (s.off + i) default

end cc0

/-- Quick sanity example: create from the empty array allocates and sets the
fields. -/
example :
    (cc0.array.empty Nat).create 3 false =
      (⟨some [0, 0, 0], 3, 3⟩, 1, 0) := by decide

/-- Substituting the element at a valid index for itself leaves a list
unchanged. -/
theorem list_set_getD_self [Inhabited α] :
    ∀ (l : List α) (i : Nat), i < l.length → l.set i (l.getD i default) = l
  | [], i, h => absurd h (by simp)
  | _ :: _, 0, _ => rfl
  | x :: xs, i + 1, h =>
    congrArg (x :: ·) (list_set_getD_self xs i (Nat.lt_of_succ_lt_succ h))

/-- The non-aliasing write loop preserves the buffer length. -/
theorem copyLoop_length [Inhabited α] (src buf : List α) :
    ∀ n, (cc0.copyLoop src buf n).length = buf.length
  | 0 => rfl
  | n + 1 => by
    show ((cc0.copyLoop src buf n).set n _).length = _
    rw [List.length_set, copyLoop_length src buf n]

/-- The aliased write loop preserves the buffer length. -/
theorem selfCopyLoop_length [Inhabited α] (buf : List α) :
    ∀ n, (cc0.selfCopyLoop buf n).length = buf.length
  | 0 => rfl
  | n + 1 => by
    show ((cc0.selfCopyLoop buf n).set n _).length = _
    rw [List.length_set, selfCopyLoop_length buf n]

/-- The aliased write loop, run within the buffer, is the identity: every write
stores back the value just read from the same cell. -/
theorem selfCopyLoop_eq_self [Inhabited α] (buf : List α) :
    ∀ n, n ≤ buf.length → cc0.selfCopyLoop buf n = buf
  | 0, _ => rfl
  | n + 1, h => by
    show (cc0.selfCopyLoop buf n).set n ((cc0.selfCopyLoop buf n).getD n default) = buf
    rw [selfCopyLoop_eq_self buf n (Nat.le_of_succ_le h)]
    exact list_set_getD_self buf n (by omega)

/-- create(m, true) with m no larger than the current capacity skips its whole
body: the state is unchanged and nothing is allocated or freed. -/
theorem create_pool_noop [Inhabited α] (a : cc0.array α) (m : Nat)
    (h : m ≤ a.m_capacity) : a.create m true = (a, 0, 0) := by
  unfold cc0.array.create
  rw [if_neg]
  rintro (⟨-, hb⟩ | hgt)
  · simp at hb
  · omega

/-- When use_pool is false, or the requested size is at least the current
capacity, create(n, pool) leaves the capacity equal to n. -/
theorem create_capacity [Inhabited α] (a : cc0.array α) (n : Nat) (pool : Bool)
    (hpre : pool = false ∨ a.m_capacity ≤ n) :
    ((a.create n pool).1).m_capacity = n := by
  by_cases hcond : ((n < a.m_capacity ∧ pool = false) ∨ n > a.m_capacity)
  · by_cases hn : 0 < n
    · simp [cc0.array.create, cc0.array.destroy, hcond, hn]
    · simp [cc0.array.create, cc0.array.destroy, hcond, hn]
      omega
  · simp [cc0.array.create, hcond]
    rcases hpre with h | h
    · subst h
      simp [not_or] at hcond
      obtain ⟨h1, h2⟩ := hcond
      omega
    · simp [not_or] at hcond
      obtain ⟨h1, h2⟩ := hcond
      omega

/-- C1: the claim says create(n, true) with 0 < n ≤ capacity sets size to n, so
that create(100, true), create(50, true), create(75, true) from empty ends with
size 75 and capacity 100 after exactly one allocation. On the code the reuse
branch of create (size ≤ m_capacity with use_pool, or size = m_capacity) skips
the whole body and never writes m_size: the scenario does perform exactly one
allocation and ends with capacity 100, but its final size is 100, not 75. -/
theorem c1_pool_create_never_sets_size :
    (((cc0.array.empty Nat).create 100 true).1.create 50 true).2.1 = 0 ∧
    ((((cc0.array.empty Nat).create 100 true).1.create 50 true).1.create 75
        true).2.1 = 0 ∧
    ((cc0.array.empty Nat).create 100 true).2.1 = 1 ∧
    ((((cc0.array.empty Nat).create 100 true).1.create 50 true).1.create 75
        true).1.m_capacity = 100 ∧
    ((((cc0.array.empty Nat).create 100 true).1.create 50 true).1.create 75
        true).1.m_size = 100 ∧
    ¬ ((((cc0.array.empty Nat).create 100 true).1.create 50 true).1.create 75
        true).1.m_size = 75 := by
  refine ⟨rfl, rfl, rfl, rfl, rfl, by decide⟩

/-- C2: the claim says copy-assignment d = c gives d.size() = c.size(). On the
code, when the destination already has capacity at least c's size, the
create(c.size, true) step inside copy is a complete no-op (it never writes
m_size), so the write loop runs to the old destination size. Here d has size
and capacity 5 (reached by create(5, false) from empty) and c holds the two
elements 10, 20: after d = c the destination's size is still 5, not 2, and the
loop has read past c's two-element buffer (junk beyond index 1). -/
theorem c2_copy_assign_size_mismatch :
    ((((cc0.array.empty Nat).create 5 false).1.copyAssign
        (((cc0.array.empty Nat).copy [10, 20] 2 true).1)).1.m_size = 5 ∧
      (((cc0.array.empty Nat).copy [10, 20] 2 true).1).m_size = 2) ∧
    ((((cc0.array.empty Nat).create 5 false).1.copyAssign
        (((cc0.array.empty Nat).copy [10, 20] 2 true).1)).1.m_values =
      some [10, 20, 0, 0, 0]) := by
  refine ⟨⟨rfl, rfl⟩, rfl⟩

/-- C3: the claim says create(0, true) sets size to 0 while leaving the buffer
pointer and the capacity unchanged. On the code, create(0, true) skips its
whole body whenever 0 ≤ m_capacity, so nothing at all changes: starting from
the state reached by create(2, false) from empty (size 2, capacity 2), a
subsequent create(0, true) performs no allocation and no deallocation and
leaves the buffer and capacity unchanged, but the size stays 2 instead of
becoming 0. -/
theorem c3_create_zero_pool_keeps_size :
    (((cc0.array.empty Nat).create 2 false).1.create 0 true) =
      (⟨some [0, 0], 2, 2⟩, 0, 0) ∧
    ¬ ((((cc0.array.empty Nat).create 2 false).1.create 0 true).1.m_size = 0) := by
  refine ⟨rfl, by decide⟩

/-- C4: the claim says self-move-assignment leaves the array unchanged. On the
code the guard m_values != arr.m_values skips destroy, but the subsequent
reset of the source writes through the alias: a nonempty array (here one
element 7, built by copy from a raw buffer) ends up with a null pointer, size
0 and capacity 0, its buffer leaked (zero deallocations), which differs from
its state before the assignment. -/
theorem c4_self_move_empties_array :
    (((cc0.array.empty Nat).copy [7] 1 true).1.selfMoveAssign =
      (⟨none, 0, 0⟩, 0)) ∧
    ¬ ((((cc0.array.empty Nat).copy [7] 1 true).1.selfMoveAssign).1 =
        ((cc0.array.empty Nat).copy [7] 1 true).1) := by
  refine ⟨rfl, by decide⟩

/-- C6: after move-construction or move-assignment from a distinct source, the
source is in the default empty state (null buffer, size 0, capacity 0) and the
destination holds exactly the buffer pointer, size and capacity the source
held before the move. -/
theorem c6_move_transfers_and_empties_source (d c : cc0.array α) :
    ((d.moveAssign c).1.1.m_values = c.m_values ∧
      (d.moveAssign c).1.1.m_size = c.m_size ∧
      (d.moveAssign c).1.1.m_capacity = c.m_capacity ∧
      (d.moveAssign c).1.2 = ⟨none, 0, 0⟩) ∧
    ((c.moveCtor).1.m_values = c.m_values ∧
      (c.moveCtor).1.m_size = c.m_size ∧
      (c.moveCtor).1.m_capacity = c.m_capacity ∧
      (c.moveCtor).2 = ⟨none, 0, 0⟩) :=
  ⟨⟨rfl, rfl, rfl, rfl⟩, ⟨rfl, rfl, rfl, rfl⟩⟩

/-- C8: narrowing a slice with 0 ≤ a ≤ b ≤ size yields a slice of size b - a
whose element at index i is the original slice's element at index a + i. -/
theorem c8_slice_narrowing [Inhabited α] (s : cc0.slice α) (a b : Nat)
    (hab : a ≤ b) (hb : b ≤ s.size) :
    (s.sub a b).size = b - a ∧
      ∀ i, i < b - a → (s.sub a b).get i = s.get (a + i) := by
  refine ⟨rfl, fun i _ => ?_⟩
  simp [cc0.slice.sub, cc0.slice.get, Nat.add_assoc]

/-- Witness for C8 at a concrete slice over memory 1, 2, 3, 4 with a = 1,
b = 3. -/
theorem c8_slice_narrowing_witness :
    ((1 ≤ 3 ∧ 3 ≤ (cc0.slice.mk [1, 2, 3, 4] 0 4 : cc0.slice Nat).size) ∧
      (((cc0.slice.mk [1, 2, 3, 4] 0 4 : cc0.slice Nat).sub 1 3).size = 3 - 1 ∧
        ∀ i, i < 3 - 1 →
          ((cc0.slice.mk [1, 2, 3, 4] 0 4 : cc0.slice Nat).sub 1 3).get i =
            (cc0.slice.mk [1, 2, 3, 4] 0 4 : cc0.slice Nat).get (1 + i))) :=
  ⟨⟨by decide, by decide⟩,
    c8_slice_narrowing (cc0.slice.mk [1, 2, 3, 4] 0 4) 1 3 (by decide) (by decide)⟩

/-- C10: create(m_capacity, false) on an array of positive capacity is a
complete no-op: the state is returned unchanged and no allocation or
deallocation is performed. -/
theorem c10_create_full_capacity_noop [Inhabited α] (a : cc0.array α)
    (h : 0 < a.m_capacity) :
    a.create a.m_capacity false = (a, 0, 0) := by
  unfold cc0.array.create
  rw [if_neg]
  simp

/-- Witness for C10 at the concrete array with one element 1. -/
theorem c10_create_full_capacity_noop_witness :
    (0 < (cc0.array.mk (some [1]) 1 1 : cc0.array Nat).m_capacity) ∧
      (cc0.array.mk (some [1]) 1 1 : cc0.array Nat).create
          (cc0.array.mk (some [1]) 1 1 : cc0.array Nat).m_capacity false =
        ((cc0.array.mk (some [1]) 1 1 : cc0.array Nat), 0, 0) :=
  ⟨by decide, c10_create_full_capacity_noop (cc0.array.mk (some [1]) 1 1) (by decide)⟩

/-- The default-constructed array satisfies the invariant. -/
theorem inv_empty : (cc0.array.empty α).Inv :=
  ⟨Nat.le_refl 0, rfl⟩

/-- create preserves the invariant. -/
theorem inv_create [Inhabited α] (a : cc0.array α) (n : Nat) (pool : Bool)
    (h : a.Inv) : ((a.create n pool).1).Inv := by
  by_cases hcond : ((n < a.m_capacity ∧ pool = false) ∨ n > a.m_capacity)
  · by_cases hn : 0 < n
    · simp [cc0.array.create, cc0.array.destroy, hcond, hn]
      exact ⟨Nat.le_refl n, by simp, hn⟩
    · simp [cc0.array.create, cc0.array.destroy, hcond, hn]
      exact ⟨Nat.le_refl 0, rfl⟩
  · simpa [cc0.array.create, hcond] using h

/-- destroy preserves the invariant. -/
theorem inv_destroy (a : cc0.array α) (pool : Bool) (h : a.Inv) :
    ((a.destroy pool).1).Inv := by
  unfold cc0.array.destroy
  split
  · exact ⟨Nat.le_refl 0, rfl⟩
  · exact ⟨Nat.zero_le _, h.2⟩

/-- copy preserves the invariant, for any source region. -/
theorem inv_copy [Inhabited α] (a : cc0.array α) (src : List α) (n : Nat)
    (pool : Bool) (h : a.Inv) : ((a.copy src n pool).1).Inv := by
  have h1 := inv_create a n pool h
  rcases hb : (a.create n pool).1 with ⟨v, s, cap⟩
  rw [hb] at h1
  simp only [cc0.array.copy]
  rw [hb]
  cases v with
  | none => exact h1
  | some buf =>
    obtain ⟨hs, hlen, hpos⟩ := h1
    exact ⟨hs, by simpa [copyLoop_length] using hlen, hpos⟩

/-- Self copy-assignment preserves the invariant. -/
theorem inv_selfCopyAssign [Inhabited α] (c : cc0.array α) (h : c.Inv) :
    ((c.selfCopyAssign).1).Inv := by
  have h1 := inv_create c c.m_size true h
  rcases hb : (c.create c.m_size true).1 with ⟨v, s, cap⟩
  rw [hb] at h1
  simp only [cc0.array.selfCopyAssign]
  rw [hb]
  cases v with
  | none => exact h1
  | some buf =>
    obtain ⟨hs, hlen, hpos⟩ := h1
    exact ⟨hs, by simpa [selfCopyLoop_length] using hlen, hpos⟩

/-- C7: the DynArray invariant (size ≤ capacity; a positive capacity owns
exactly capacity elements; zero capacity means null buffer and zero size)
holds for the default-constructed array and is preserved by create with either
pool flag, destroy with either pool flag, copy-assignment, move-assignment
(both between distinct objects and onto the object itself), and
move-construction, in every component the operation touches. -/
theorem c7_invariant_preservation [Inhabited α] :
    (cc0.array.empty α).Inv ∧
    (∀ (a : cc0.array α) (n : Nat) (pool : Bool), a.Inv →
      ((a.create n pool).1).Inv) ∧
    (∀ (a : cc0.array α) (pool : Bool), a.Inv → ((a.destroy pool).1).Inv) ∧
    (∀ (d c : cc0.array α), d.Inv → c.Inv → ((d.copyAssign c).1).Inv) ∧
    (∀ (c : cc0.array α), c.Inv → ((c.selfCopyAssign).1).Inv) ∧
    (∀ (d c : cc0.array α), c.Inv →
      ((d.moveAssign c).1.1).Inv ∧ ((d.moveAssign c).1.2).Inv) ∧
    (∀ (c : cc0.array α), c.Inv →
      ((c.moveCtor).1).Inv ∧ ((c.moveCtor).2).Inv) ∧
    (∀ (c : cc0.array α), ((c.selfMoveAssign).1).Inv) :=
  ⟨inv_empty, inv_create, inv_destroy,
    fun d c hd _ => inv_copy d (c.m_values.getD []) c.m_size true hd,
    inv_selfCopyAssign,
    fun _ c hc => ⟨⟨hc.1, hc.2⟩, Nat.le_refl 0, rfl⟩,
    fun c hc => ⟨⟨hc.1, hc.2⟩, Nat.le_refl 0, rfl⟩,
    fun _ => ⟨Nat.le_refl 0, rfl⟩⟩

/-- Witness for C7: the invariant holds at a concrete one-element array and is
preserved by a concrete pooled create on it. -/
theorem c7_invariant_preservation_witness :
    (cc0.array.mk (some [5]) 1 1 : cc0.array Nat).Inv ∧
      (((cc0.array.mk (some [5]) 1 1 : cc0.array Nat).create 4 true).1).Inv :=
  ⟨by decide,
    c7_invariant_preservation.2.1 (cc0.array.mk (some [5]) 1 1) 4 true (by decide)⟩

/-- C9 (amended context: none needed): self copy-assignment c = c on any array
satisfying the invariant is a complete no-op: create(c.m_size, true) skips its
body because m_size ≤ m_capacity, and the aliased write loop stores every
element back into its own cell, so the state is unchanged and nothing is
allocated or freed. -/
theorem c9_self_copy_assign_noop [Inhabited α] (c : cc0.array α) (h : c.Inv) :
    c.selfCopyAssign = (c, 0, 0) := by
  obtain ⟨hsz, hv⟩ := h
  have hnoop : c.create c.m_size true = (c, 0, 0) := create_pool_noop c c.m_size hsz
  unfold cc0.array.selfCopyAssign
  rw [hnoop]
  rcases c with ⟨v, s, cap⟩
  cases v with
  | none => rfl
  | some buf =>
    obtain ⟨hlen, -⟩ := hv
    simp [selfCopyLoop_eq_self buf s (by simp_all)]

/-- Witness for C9 at the concrete two-element array 3, 4. -/
theorem c9_self_copy_assign_noop_witness :
    (cc0.array.mk (some [3, 4]) 2 2 : cc0.array Nat).Inv ∧
      (cc0.array.mk (some [3, 4]) 2 2 : cc0.array Nat).selfCopyAssign =
        ((cc0.array.mk (some [3, 4]) 2 2 : cc0.array Nat), 0, 0) :=
  ⟨by decide, c9_self_copy_assign_noop (cc0.array.mk (some [3, 4]) 2 2) (by decide)⟩

/-- C5 counterexample: the claim quantifies over every DynArray, but when the
array already has capacity 10 (reached by create(10, false) from empty), the
sequence create(5, true) then destroy(true) leaves capacity 10, not 5, because
the pooled create is a no-op and never shrinks the capacity to the requested
size. -/
theorem c5_counterexample :
    ((((cc0.array.empty Nat).create 10 false).1.create 5 true).1.destroy
        true).1.m_size = 0 ∧
    ((((cc0.array.empty Nat).create 10 false).1.create 5 true).1.destroy
        true).1.m_capacity = 10 ∧
    ¬ ((((cc0.array.empty Nat).create 10 false).1.create 5 true).1.destroy
        true).1.m_capacity = 5 := by
  refine ⟨rfl, rfl, by decide⟩

/-- C5 amended: destroy(false) zeroes all three fields and releases any owned
buffer; destroy(true) sets size to 0 and leaves the buffer pointer and the
capacity unchanged; and after create(n, pool) then destroy(true) — provided
pool is false or n is at least the prior capacity (in particular starting from
an empty DynArray) — size is 0 and capacity is n, and a subsequent
create(m, true) with m ≤ n is a no-op performing no allocation. -/
theorem c5_destroy_and_pooling [Inhabited α] (a : cc0.array α) (n m : Nat)
    (pool : Bool) (hpre : pool = false ∨ a.m_capacity ≤ n) (hm : m ≤ n) :
    ((a.destroy false).1 = ⟨none, 0, 0⟩ ∧
      (a.m_values.isSome → (a.destroy false).2 = 1)) ∧
    (a.destroy true).1 = ⟨a.m_values, 0, a.m_capacity⟩ ∧
    (((a.create n pool).1.destroy true).1.m_size = 0 ∧
      ((a.create n pool).1.destroy true).1.m_capacity = n) ∧
    ((a.create n pool).1.destroy true).1.create m true =
      (((a.create n pool).1.destroy true).1, 0, 0) := by
  refine ⟨⟨rfl, fun hs => ?_⟩, rfl, ⟨rfl, ?_⟩, ?_⟩
  · simp [cc0.array.destroy, hs]
  · show ((a.create n pool).1).m_capacity = n
    exact create_capacity a n pool hpre
  · apply create_pool_noop
    show m ≤ ((a.create n pool).1).m_capacity
    have h2 := create_capacity a n pool hpre
    omega

/-- Witness for C5 amended: the empty array with n = 3, m = 2, pool = true. -/
theorem c5_destroy_and_pooling_witness :
    (((true : Bool) = false ∨ (cc0.array.empty Nat).m_capacity ≤ 3) ∧ 2 ≤ 3) ∧
    ((((cc0.array.empty Nat).destroy false).1 = ⟨none, 0, 0⟩ ∧
        ((cc0.array.empty Nat).m_values.isSome →
          ((cc0.array.empty Nat).destroy false).2 = 1)) ∧
      ((cc0.array.empty Nat).destroy true).1 =
        ⟨(cc0.array.empty Nat).m_values, 0, (cc0.array.empty Nat).m_capacity⟩ ∧
      ((((cc0.array.empty Nat).create 3 true).1.destroy true).1.m_size = 0 ∧
        (((cc0.array.empty Nat).create 3 true).1.destroy true).1.m_capacity = 3) ∧
      (((cc0.array.empty Nat).create 3 true).1.destroy true).1.create 2 true =
        ((((cc0.array.empty Nat).create 3 true).1.destroy true).1, 0, 0)) :=
  ⟨⟨Or.inr (by decide), by decide⟩,
    c5_destroy_and_pooling (cc0.array.empty Nat) 3 2 true (Or.inr (by decide))
      (by decide)⟩
